import Mathlib

/-!
Verification of the geoip-rs specification against `src/main.rs`.

The development shallowly embeds the request-path functions
(`ip_address_to_resolve`, `get_language`, `subdiv_query`, the body of the
`index` handler) and a generation/outcome model of the database-refresh
functions (`update_db`, the scheduler closure in `main`).  Rust `Option`
maps to Lean `Option`; panics (`unwrap`, `expect`) are modelled as `none`
results of the enclosing computation; the `BTreeMap<&str, &str>` name maps
of the maxminddb records are modelled as association lists queried with
`List.lookup`.  The `f64` coordinates are modelled as `Int`: the handler
only copies them (defaulting to zero) and no claim concerns their numeric
value, so no floating-point reasoning is needed.
-/

namespace GeoipRs

/-- Split a character list at every occurrence of `c`.  Mirrors Rust's
`str::split(c)`: there is always at least one (possibly empty) segment. -/
def splitOnChar (c : Char) : List Char → List (List Char)
  | [] => [[]]
  | x :: xs =>
    match splitOnChar c xs with
    | [] => [[]]
    | y :: ys => if x == c then [] :: y :: ys else (x :: y) :: ys

/-- Split a character list at every non-overlapping occurrence of
a double colon, as `str::split("::")` would. -/
def splitOnDoubleColon : List Char → List (List Char)
  | [] => [[]]
  | ':' :: ':' :: xs =>
    match splitOnDoubleColon xs with
    | [] => [[]]
    | ys => [] :: ys
  | x :: xs =>
    match splitOnDoubleColon xs with
    | [] => [[]]
    | y :: ys => (x :: y) :: ys

/-- Numeric value of a decimal digit string (accumulator form). -/
def digitsVal : List Char → Nat → Nat
  | [], acc => acc
  | c :: cs, acc => digitsVal cs (acc * 10 + (c.toNat - 48))

/-- Modelled from the spec: one dotted-quad octet of an IPv4 literal as
accepted by the standard library parser invoked at `main.rs:85` and
`main.rs:120` (that parser lives outside this repository): a non-empty
all-digit string with no leading zero, of value at most 255. -/
def ipv4_octet_ok : List Char → Bool
  | [] => false
  | ['0'] => true
  | '0' :: _ :: _ => false
  | l => l.all Char.isDigit && decide (digitsVal l 0 ≤ 255)

/-- Modelled from the spec: validity of an IPv4 literal (`Ipv4Addr::from_str`,
outside this repository): exactly four valid octets separated by dots. -/
def isValidIpv4 (s : String) : Bool :=
  let parts := splitOnChar '.' s.toList
  parts.length == 4 && parts.all ipv4_octet_ok

def isHexDigitChar (c : Char) : Bool :=
  c.isDigit || (decide ('a' ≤ c) && decide (c ≤ 'f')) || (decide ('A' ≤ c) && decide (c ≤ 'F'))

/-- A 16-bit IPv6 group: one to four hexadecimal digits. -/
def hex_group_ok (l : List Char) : Bool :=
  decide (1 ≤ l.length) && decide (l.length ≤ 4) && l.all isHexDigitChar

/-- Number of 16-bit groups denoted by a colon-separated tail of an IPv6
literal; the final group may be an embedded IPv4 literal (two groups).
Returns `none` when the segment list is not well formed. -/
def ipv6_tail_groups (gs : List (List Char)) : Option Nat :=
  if gs.all hex_group_ok then some gs.length
  else
    match gs.getLast? with
    | none => none
    | some last =>
      if gs.dropLast.all hex_group_ok && isValidIpv4 (String.mk last) then
        some (gs.dropLast.length + 2)
      else none

/-- Modelled from the spec: validity of an IPv6 literal (`Ipv6Addr::from_str`,
outside this repository): eight groups, or a single `::` abbreviation with
fewer than eight groups in total, the last group possibly an embedded IPv4. -/
def isValidIpv6 (s : String) : Bool :=
  match splitOnDoubleColon s.toList with
  | [one] => ipv6_tail_groups (splitOnChar ':' one) == some 8
  | [l, r] =>
    let lg := if l.isEmpty then [] else splitOnChar ':' l
    let rg := if r.isEmpty then [] else splitOnChar ':' r
    lg.all hex_group_ok &&
      match ipv6_tail_groups rg with
      | some n => decide (lg.length + n < 8)
      | none => false
  | _ => false

/-- The disjunction tested at `main.rs:85` and the `IpAddr` parse at
`main.rs:120`: the string is a valid IPv4 or IPv6 literal. -/
def isValidIp (s : String) : Bool :=
  isValidIpv4 s || isValidIpv6 s

/-- `HeaderMap::get` modelled over an association list of header
name/value pairs (names already in the form the handler queries). -/
def headerGet (headers : List (String × String)) (name : String) : Option String :=
  (headers.find? fun p => p.1 == name).map fun p => p.2

/-- `ip_port.split(':').take(1).last().unwrap()` from `main.rs:94`:
the first colon-separated segment of the remote peer string. -/
def first_colon_segment (ip_port : String) : String :=
  String.mk ((splitOnChar ':' ip_port.toList).headD [])

/-- `ip_address_to_resolve` from `main.rs:79-98`.  The final `.expect`
panic (no source yields an address) is modelled as `none`. -/
def ip_address_to_resolve (ip : Option String) (headers : List (String × String))
    (remote_addr : Option String) : Option String :=
  ((ip.filter fun ip_address => isValidIpv4 ip_address || isValidIpv6 ip_address).orElse
      fun _ => headerGet headers "X-Real-IP").orElse
    fun _ => remote_addr.map fun ip_port => first_colon_segment ip_port

/-- `get_language` from `main.rs:100-102`. -/
def get_language (lang : Option String) : String :=
  lang.getD "en"

/-- `maxminddb::geoip2::model::Subdivision` (the fields the handler reads). -/
structure Subdivision where
  iso_code : Option String
  names : Option (List (String × String))
deriving DecidableEq

/-- `maxminddb::geoip2::model::Country` (the fields the handler reads). -/
structure CountryModel where
  iso_code : Option String
  names : Option (List (String × String))
deriving DecidableEq

/-- `maxminddb::geoip2::model::City` (the fields the handler reads). -/
structure CityModel where
  names : Option (List (String × String))
deriving DecidableEq

/-- `maxminddb::geoip2::model::Continent` (the fields the handler reads). -/
structure ContinentModel where
  code : Option String
deriving DecidableEq

/-- `maxminddb::geoip2::model::Location` (the fields the handler reads);
coordinates modelled as `Int` (only copied, never computed with). -/
structure LocationModel where
  latitude : Option Int
  longitude : Option Int
  time_zone : Option String
deriving DecidableEq

/-- `maxminddb::geoip2::model::Postal` (the field the handler reads). -/
structure PostalModel where
  code : Option String
deriving DecidableEq

/-- `maxminddb::geoip2::City`: the record a successful lookup returns
(the fields the handler reads). -/
structure City where
  city : Option CityModel
  continent : Option ContinentModel
  country : Option CountryModel
  location : Option LocationModel
  postal : Option PostalModel
  subdivisions : Option (List Subdivision)
deriving DecidableEq

/-- `NonResolvedIPResponse` from `main.rs:50-53`. -/
structure NonResolvedIPResponse where
  ip_address : String
deriving DecidableEq

/-- `ResolvedIPResponse` from `main.rs:55-70` (coordinates as `Int`). -/
structure ResolvedIPResponse where
  ip_address : String
  latitude : Int
  longitude : Int
  postal_code : String
  continent_code : String
  country_code : String
  country_name : String
  region_code : String
  region_name : String
  province_code : String
  province_name : String
  city_name : String
  timezone : String
deriving DecidableEq

/-- `QueryParams` from `main.rs:72-77`. -/
structure QueryParams where
  ip : Option String
  lang : Option String
  callback : Option String
deriving DecidableEq

/-- The struct handed to `serde_json::to_string` in either arm of the
`match lookup` at `main.rs:122-203`. -/
inductive Payload where
  | resolved (r : ResolvedIPResponse)
  | unresolved (r : NonResolvedIPResponse)
deriving DecidableEq

/-- The `ip_address` field of whichever response struct was serialized. -/
def payload_ip : Payload → String
  | .resolved r => r.ip_address
  | .unresolved r => r.ip_address

/-- `subdiv_query` from `main.rs:108-114` (the `map(to_string)` is the
identity in this embedding). -/
def subdiv_query (div : Option Subdivision) (language : String) : String :=
  (((div.bind fun subdiv => subdiv.names).bind fun names =>
      names.lookup language).map fun s => s).getD ""

/-- The database behind `data.db.lookup`: `none` models
`Err(MaxMindDBError)` (in particular `AddressNotFoundError`). -/
def Db := String → Option City

/-- The `Ok(geoip)` arm of `index` (`main.rs:123-197`): builds the
`ResolvedIPResponse` struct field by field as the source does. -/
def buildResolved (ip_address : String) (language : String) (geoip : City) : ResolvedIPResponse :=
  let region := (geoip.subdivisions.filter fun subdivs => !subdivs.isEmpty).bind
    fun subdivs => subdivs.get? 0
  let province := (geoip.subdivisions.filter fun subdivs => decide (subdivs.length > 1)).bind
    fun subdivs => subdivs.get? 1
  let country_name := ((geoip.country.bind fun country => country.names).bind
    fun names => names.lookup language).getD ""
  let city_name := ((geoip.city.bind fun city => city.names).bind
    fun names => names.lookup language).getD ""
  { ip_address := ip_address
    latitude := (geoip.location.bind fun loc => loc.latitude).getD 0
    longitude := (geoip.location.bind fun loc => loc.longitude).getD 0
    postal_code := (geoip.postal.bind fun postal => postal.code).getD ""
    continent_code := (geoip.continent.bind fun cont => cont.code).getD ""
    country_code := (geoip.country.bind fun country => country.iso_code).getD ""
    country_name := country_name
    region_code := (region.bind fun subdiv => subdiv.iso_code).getD ""
    region_name := subdiv_query region language
    province_code := (province.bind fun subdiv => subdiv.iso_code).getD ""
    province_name := subdiv_query province language
    city_name := city_name
    timezone := (geoip.location.bind fun loc => loc.time_zone).getD "" }

/-- The `index` handler up to serialization (`main.rs:116-203`): resolves
the address, parses it (`main.rs:120`; a parse failure is the modelled
`unwrap` panic, hence `none`), performs the lookup and picks the payload.
Also `none` when the resolver itself panics. -/
def index_core (db : Db) (query : QueryParams) (headers : List (String × String))
    (remote_addr : Option String) : Option (String × Payload) :=
  let language := get_language query.lang
  match ip_address_to_resolve query.ip headers remote_addr with
  | none => none
  | some ip_address =>
    if isValidIp ip_address then
      match db ip_address with
      | some geoip => some (ip_address, Payload.resolved (buildResolved ip_address language geoip))
      | none => some (ip_address, Payload.unresolved { ip_address := ip_address })
    else none

def jstr (s : String) : String := "\"" ++ s ++ "\""

/-- `serde_json::to_string` on the two response structs: fields in
declaration order, as serde emits them. -/
def serde_json_to_string : Payload → String
  | .unresolved r => "\x7b\"ip_address\":" ++ jstr r.ip_address ++ "\x7d"
  | .resolved r =>
    "\x7b\"ip_address\":" ++ jstr r.ip_address ++
    ",\"latitude\":" ++ toString r.latitude ++
    ",\"longitude\":" ++ toString r.longitude ++
    ",\"postal_code\":" ++ jstr r.postal_code ++
    ",\"continent_code\":" ++ jstr r.continent_code ++
    ",\"country_code\":" ++ jstr r.country_code ++
    ",\"country_name\":" ++ jstr r.country_name ++
    ",\"region_code\":" ++ jstr r.region_code ++
    ",\"region_name\":" ++ jstr r.region_name ++
    ",\"province_code\":" ++ jstr r.province_code ++
    ",\"province_name\":" ++ jstr r.province_name ++
    ",\"city_name\":" ++ jstr r.city_name ++
    ",\"timezone\":" ++ jstr r.timezone ++ "\x7d"

/-- An HTTP response as the handler constructs it. -/
structure HttpResp where
  status : Nat
  content_type : String
  body : String
deriving DecidableEq

/-- The media type of a content-type header value: the part before the
first semicolon. -/
def media_type (content_type : String) : String :=
  String.mk ((splitOnChar ';' content_type.toList).headD [])

/-- The full `index` handler (`main.rs:116-214`): serializes the payload
and frames it per `query.callback` (`main.rs:206-213`). `none` models the
panics inside the handler (no response is produced). -/
def index (db : Db) (query : QueryParams) (headers : List (String × String))
    (remote_addr : Option String) : Option HttpResp :=
  (index_core db query headers remote_addr).map fun p =>
    let geoip := serde_json_to_string p.2
    match query.callback with
    | some callback =>
      { status := 200, content_type := "application/javascript; charset=utf-8",
        body := ";" ++ callback ++ "(" ++ geoip ++ ");" }
    | none =>
      { status := 200, content_type := "application/json; charset=utf-8", body := geoip }

/-- `EDITIONS` from `main.rs:46-48`: the edition identifiers. -/
def EDITIONS : List String := ["GeoLite2-City"]

/-- Environment of one edition's refresh attempt: which of the fallible
steps of the loop body of `update_db` (`main.rs:239-274`) succeed, and the
entry paths of the downloaded archive. -/
structure EditionOutcome where
  network_ok : Bool
  create_ok : Bool
  content_length : Option Nat
  io_ok : Bool
  entries : List String
deriving DecidableEq

inductive EditionStep where
  | installed
  | noEntry
  | errStep
  | panicStep
deriving DecidableEq

/-- `Path::ends_with("<edition>.mmdb")` from `main.rs:264`: the last
path component equals the expected database filename. -/
def path_matches_mmdb (p ed : String) : Bool :=
  (splitOnChar '/' p.toList).getLastD [] == (ed ++ ".mmdb").toList

/-- One iteration of the edition loop in `update_db` (`main.rs:239-274`),
in source order: the network call and file creation fail via the question
mark operator (an error result), a missing or unparsable Content-Length
header hits the bare `unwrap` at `main.rs:252` (a panic), the remaining
file operations fail via the question mark operator, and the archive scan
installs the entry whose path ends with the edition's mmdb filename —
finding no such entry is no failure at all in the source. -/
def process_edition (ed : String) (o : EditionOutcome) : EditionStep :=
  if !o.network_ok then .errStep
  else if !o.create_ok then .errStep
  else
    match o.content_length with
    | none => .panicStep
    | some _ =>
      if !o.io_ok then .errStep
      else if o.entries.any fun p => path_matches_mmdb p ed then .installed
      else .noEntry

inductive RunResult where
  | ok
  | err
  | panicked
deriving DecidableEq

/-- The edition loop of `update_db`: a question-mark error aborts the whole
function (and with it every later edition), a panic unwinds out of it. -/
def update_db_loop : List String → (String → EditionOutcome) → RunResult
  | [], _ => .ok
  | ed :: rest, oc =>
    match process_edition ed (oc ed) with
    | .panicStep => .panicked
    | .errStep => .err
    | .installed => update_db_loop rest oc
    | .noEntry => update_db_loop rest oc

/-- `update_db` from `main.rs:235-279`: without a license the cycle is an
`Ok` no-op, otherwise the edition loop runs. -/
def update_db (license : Option String) (oc : String → EditionOutcome) : RunResult :=
  match license with
  | none => .ok
  | some _ => update_db_loop EDITIONS oc

inductive JobResult where
  | completed
  | crashed
deriving DecidableEq

/-- The scheduler closure from `main.rs:293-300`: it matches on the
`Result` of `update_db` (printing errors), but a panic inside `update_db`
unwinds through the closure and crashes the scheduler's watch thread. -/
def scheduled_job (license : Option String) (oc : String → EditionOutcome) : JobResult :=
  match update_db license oc with
  | .panicked => .crashed
  | .ok => .completed
  | .err => .completed

/-- Generation-tracking model of the database file and the reader handle:
`file_gen` is the content generation of the file at the live database
path, `handle_gen` the generation mmapped by the `Arc<Reader>` opened in
`main` (`main.rs:289`). -/
structure SysState where
  file_gen : Nat
  handle_gen : Nat
deriving DecidableEq

/-- Startup (`main.rs:289`): the reader is opened against the current
file, so both generations coincide. -/
def main_startup (g : Nat) : SysState :=
  { file_gen := g, handle_gen := g }

/-- A fully successful `update_db` cycle installing content generation `g`
(`main.rs:261-273`): the extracted file is renamed onto the live path.
`update_db` contains no `Reader::open` call and no store to the shared
handle, and the server closure (`main.rs:318-324`) only clones the `Arc`
captured at startup, so the rename changes the directory entry only and
`handle_gen` is untouched. -/
def update_db_install (s : SysState) (g : Nat) : SysState :=
  { s with file_gen := g }

/-- The generation a request's lookup actually reads: that of the mmap
behind the cloned startup handle. -/
def lookup_gen (s : SysState) : Nat :=
  s.handle_gen

/-- C1: the IP resolver's strict precedence: a query-string value that is a
valid IPv4 or IPv6 literal is always selected; otherwise the X-Real-IP
header value is selected verbatim whenever that header is present; and
with that header also absent, the first colon-separated segment of the
remote peer string is selected. -/
theorem c1_resolver_precedence (ip : Option String) (headers : List (String × String))
    (remote_addr : Option String) :
    (∀ s, ip = some s → isValidIp s = true →
      ip_address_to_resolve ip headers remote_addr = some s)
    ∧ ((ip = none ∨ ∃ s, ip = some s ∧ isValidIp s = false) →
      (∀ v, headerGet headers "X-Real-IP" = some v →
        ip_address_to_resolve ip headers remote_addr = some v)
      ∧ (headerGet headers "X-Real-IP" = none →
        ∀ r, remote_addr = some r →
          ip_address_to_resolve ip headers remote_addr = some (first_colon_segment r))) := by
  constructor
  · intro s hs hvalid
    subst hs
    simp only [isValidIp] at hvalid
    simp [ip_address_to_resolve, Option.filter, hvalid, Option.orElse]
  · intro hinv
    have hfil : (ip.filter fun a => isValidIpv4 a || isValidIpv6 a) = none := by
      rcases hinv with h | ⟨s, hs, hv⟩
      · subst h; rfl
      · subst hs
        simp only [isValidIp] at hv
        simp [Option.filter, hv]
    constructor
    · intro v hv
      simp [ip_address_to_resolve, hfil, Option.orElse, hv]
    · intro hh r hr
      subst hr
      simp [ip_address_to_resolve, hfil, Option.orElse, hh]

theorem c1_witness :
    ip_address_to_resolve (some "not-an-ip") [("X-Real-IP", "203.0.113.9")]
      (some "198.51.100.7:443") = some "203.0.113.9" :=
  ((c1_resolver_precedence (some "not-an-ip") [("X-Real-IP", "203.0.113.9")]
      (some "198.51.100.7:443")).2
    (Or.inr ⟨"not-an-ip", rfl, by decide⟩)).1 "203.0.113.9" rfl

/-- C8 fails as stated: with no query-string ip, no X-Real-IP header and an
X-Forwarded-For header present, the resolver ignores X-Forwarded-For and
selects the remote peer's host segment instead. -/
theorem c8_counterexample :
    ip_address_to_resolve none [("X-Forwarded-For", "203.0.113.9")]
        (some "198.51.100.7:443") = some "198.51.100.7"
    ∧ ip_address_to_resolve none [("X-Forwarded-For", "203.0.113.9")]
        (some "198.51.100.7:443") ≠ some "203.0.113.9" := by
  constructor
  · rfl
  · decide

/-- C8 amended: the resolver's real-IP fallback consults only the
X-Real-IP header; an X-Forwarded-For header has no effect on the resolved
address (it appears in the source only in the CORS allow-list). -/
theorem c8_amended (ip : Option String) (v : String) (headers : List (String × String))
    (remote_addr : Option String) :
    ip_address_to_resolve ip (("X-Forwarded-For", v) :: headers) remote_addr
      = ip_address_to_resolve ip headers remote_addr := by
  have hne : (("X-Forwarded-For" : String) == "X-Real-IP") = false := by decide
  simp [ip_address_to_resolve, headerGet, List.find?, hne]

/-- C2 fails on the code: after a refresh cycle renames a new database
generation onto the live path, the handle used for lookups is still the
one opened at startup: `update_db` never re-opens a reader or swaps the
shared reference, so requests keep reading the old generation. -/
theorem c2_no_handle_swap :
    (update_db_install (main_startup 0) 1).file_gen = 1
    ∧ lookup_gen (update_db_install (main_startup 0) 1) = 0
    ∧ lookup_gen (update_db_install (main_startup 0) 1) ≠ 1 := by
  refine ⟨rfl, rfl, by decide⟩

/-- C7 fails on the code: a provider response without a Content-Length
header makes `update_db` panic at the bare `unwrap`, crashing the
scheduler job instead of reporting an error; and an archive without the
expected mmdb entry makes the cycle report plain success rather than an
error. -/
theorem c7_failure_isolation_violated :
    scheduled_job (some "license-key")
        (fun _ => { network_ok := true, create_ok := true, content_length := none,
                    io_ok := true, entries := ["GeoLite2-City/GeoLite2-City.mmdb"] })
      = JobResult.crashed
    ∧ update_db (some "license-key")
        (fun _ => { network_ok := true, create_ok := true, content_length := some 1000,
                    io_ok := true, entries := ["README.txt"] })
      = RunResult.ok := by
  exact ⟨rfl, rfl⟩

/-- The region selection of the handler equals indexing the subdivision
list at 0 (the emptiness filter is redundant for index 0). -/
theorem region_select_eq (o : Option (List Subdivision)) :
    (o.filter fun subdivs => !subdivs.isEmpty).bind (fun subdivs => subdivs[0]?)
      = (o.getD [])[0]? := by
  cases o with
  | none => rfl
  | some l =>
    cases l with
    | nil => rfl
    | cons a t => simp [Option.filter]

/-- The province selection of the handler equals indexing the subdivision
list at 1 (the length filter is redundant for index 1). -/
theorem province_select_eq (o : Option (List Subdivision)) :
    (o.filter fun subdivs => decide (subdivs.length > 1)).bind (fun subdivs => subdivs[1]?)
      = (o.getD [])[1]? := by
  cases o with
  | none => rfl
  | some l =>
    cases l with
    | nil => rfl
    | cons a t =>
      cases t with
      | nil => simp [Option.filter]
      | cons b t2 => simp [Option.filter]

/-- C4: the response builder takes subdivision 0 for the region fields and
subdivision 1 for the province fields, ignoring all later elements; with
no subdivisions all four fields are empty, and with exactly one only the
region fields can be populated. -/
theorem c4_subdivision_mapping (g : City) (ip lang : String) :
    ((buildResolved ip lang g).region_code
        = (((g.subdivisions.getD [])[0]?).bind Subdivision.iso_code).getD ""
      ∧ (buildResolved ip lang g).region_name
        = subdiv_query ((g.subdivisions.getD [])[0]?) lang
      ∧ (buildResolved ip lang g).province_code
        = (((g.subdivisions.getD [])[1]?).bind Subdivision.iso_code).getD ""
      ∧ (buildResolved ip lang g).province_name
        = subdiv_query ((g.subdivisions.getD [])[1]?) lang)
    ∧ (g.subdivisions.getD [] = [] →
      (buildResolved ip lang g).region_code = ""
      ∧ (buildResolved ip lang g).region_name = ""
      ∧ (buildResolved ip lang g).province_code = ""
      ∧ (buildResolved ip lang g).province_name = "")
    ∧ (∀ d, g.subdivisions.getD [] = [d] →
      (buildResolved ip lang g).province_code = ""
      ∧ (buildResolved ip lang g).province_name = "") := by
  have hrc : (buildResolved ip lang g).region_code
      = (((g.subdivisions.getD [])[0]?).bind Subdivision.iso_code).getD "" := by
    simp [buildResolved, region_select_eq]
  have hrn : (buildResolved ip lang g).region_name
      = subdiv_query ((g.subdivisions.getD [])[0]?) lang := by
    simp [buildResolved, region_select_eq]
  have hpc : (buildResolved ip lang g).province_code
      = (((g.subdivisions.getD [])[1]?).bind Subdivision.iso_code).getD "" := by
    simp [buildResolved, province_select_eq]
  have hpn : (buildResolved ip lang g).province_name
      = subdiv_query ((g.subdivisions.getD [])[1]?) lang := by
    simp [buildResolved, province_select_eq]
  refine ⟨⟨hrc, hrn, hpc, hpn⟩, ?_, ?_⟩
  · intro h
    rw [hrc, hrn, hpc, hpn, h]
    exact ⟨rfl, rfl, rfl, rfl⟩
  · intro d h
    rw [hpc, hpn, h]
    exact ⟨rfl, rfl⟩

theorem c4_witness :
    (buildResolved "8.8.8.8" "en"
        { city := none, continent := none, country := none, location := none,
          postal := none, subdivisions := some [] }).region_code = ""
    ∧ (buildResolved "8.8.8.8" "en"
        { city := none, continent := none, country := none, location := none,
          postal := none, subdivisions := some [] }).region_name = ""
    ∧ (buildResolved "8.8.8.8" "en"
        { city := none, continent := none, country := none, location := none,
          postal := none, subdivisions := some [] }).province_code = ""
    ∧ (buildResolved "8.8.8.8" "en"
        { city := none, continent := none, country := none, location := none,
          postal := none, subdivisions := some [] }).province_name = "" :=
  (c4_subdivision_mapping
      { city := none, continent := none, country := none, location := none,
        postal := none, subdivisions := some [] } "8.8.8.8" "en").2.1 rfl

/-- C5: every localized-name field of the built response is exactly the
requested-language entry of the corresponding entity's name map, and the
empty string when the map is absent or lacks that key: never an error and
never an entry of a different language. -/
theorem c5_localization (g : City) (ip lang : String) :
    (buildResolved ip lang g).country_name
      = ((g.country.bind CountryModel.names).bind (fun m => m.lookup lang)).getD ""
    ∧ (buildResolved ip lang g).city_name
      = ((g.city.bind CityModel.names).bind (fun m => m.lookup lang)).getD ""
    ∧ (buildResolved ip lang g).region_name
      = ((((g.subdivisions.getD [])[0]?).bind Subdivision.names).bind
          (fun m => m.lookup lang)).getD ""
    ∧ (buildResolved ip lang g).province_name
      = ((((g.subdivisions.getD [])[1]?).bind Subdivision.names).bind
          (fun m => m.lookup lang)).getD "" := by
  refine ⟨?_, ?_, ?_, ?_⟩
  · simp [buildResolved]
  · simp [buildResolved]
  · simp [buildResolved, subdiv_query, region_select_eq]
  · simp [buildResolved, subdiv_query, province_select_eq]

/-- C9: whenever the handler actually produces a payload (and hence a
response), the ip_address it carries is the resolved string, and that
string is a syntactically valid IPv4 or IPv6 literal — the parse at
`main.rs:120` succeeded on the very string that is echoed back. -/
theorem c9_served_ip_is_valid (db : Db) (q : QueryParams) (hs : List (String × String))
    (r : Option String) (ip : String) (p : Payload)
    (h : index_core db q hs r = some (ip, p)) :
    isValidIp ip = true ∧ payload_ip p = ip := by
  cases hres : ip_address_to_resolve q.ip hs r with
  | none => simp [index_core, hres] at h
  | some a =>
    cases hv : isValidIp a with
    | false => simp [index_core, hres, hv] at h
    | true =>
      cases hdb : db a with
      | some g =>
        simp [index_core, hres, hv, hdb] at h
        obtain ⟨h1, h2⟩ := h
        subst h1
        refine ⟨hv, ?_⟩
        rw [← h2]
        simp [payload_ip, buildResolved]
      | none =>
        simp [index_core, hres, hv, hdb] at h
        obtain ⟨h1, h2⟩ := h
        subst h1
        refine ⟨hv, ?_⟩
        rw [← h2]
        simp [payload_ip]

theorem c9_witness :
    isValidIp "8.8.8.8" = true
    ∧ payload_ip (Payload.unresolved { ip_address := "8.8.8.8" }) = "8.8.8.8" :=
  c9_served_ip_is_valid (fun _ => none)
    { ip := some "8.8.8.8", lang := none, callback := none } [] none
    "8.8.8.8" (Payload.unresolved { ip_address := "8.8.8.8" }) (by decide)

/-- C10: the handler's parse of the resolved string is safe only for valid
IP literals: whenever the resolver's chosen string is not a valid IPv4 or
IPv6 literal, the `unwrap` at `main.rs:120` panics and the request
produces no HTTP response at all. -/
theorem c10_invalid_resolved_string_panics (db : Db) (q : QueryParams)
    (hs : List (String × String)) (r : Option String) (s : String)
    (h1 : ip_address_to_resolve q.ip hs r = some s) (h2 : isValidIp s = false) :
    index_core db q hs r = none ∧ index db q hs r = none := by
  have hc : index_core db q hs r = none := by
    simp [index_core, h1, h2]
  exact ⟨hc, by simp [index, hc]⟩

theorem c10_witness :
    index_core (fun _ => none) { ip := none, lang := none, callback := none }
        [("X-Real-IP", "not-an-ip")] none = none
    ∧ index (fun _ => none) { ip := none, lang := none, callback := none }
        [("X-Real-IP", "not-an-ip")] none = none :=
  c10_invalid_resolved_string_panics (fun _ => none)
    { ip := none, lang := none, callback := none }
    [("X-Real-IP", "not-an-ip")] none "not-an-ip" (by decide) (by decide)

/-- C3 fails as stated: a request whose resolved address is malformed for
the lookup call (here an X-Real-IP header taken verbatim) does not yield
an UnresolvedResponse with status 200 — the handler panics and produces no
response at all. -/
theorem c3_counterexample :
    ip_address_to_resolve none [("X-Real-IP", "not-an-ip")] (some "198.51.100.7:443")
      = some "not-an-ip"
    ∧ index (fun _ => none) { ip := none, lang := none, callback := none }
        [("X-Real-IP", "not-an-ip")] (some "198.51.100.7:443") = none := by
  exact ⟨rfl, rfl⟩

/-- C3 amended: a resolved address that is a valid IP literal but is not
found in the database yields an UnresolvedResponse carrying only that
ip_address, with HTTP status 200, under either framing; a resolved address
that is malformed for the lookup call instead makes the handler panic and
no response is produced. -/
theorem c3_lookup_miss_is_unresolved_200 (db : Db) (q : QueryParams)
    (hs : List (String × String)) (r : Option String) (ip : String)
    (h1 : ip_address_to_resolve q.ip hs r = some ip)
    (h2 : isValidIp ip = true) (h3 : db ip = none) :
    index_core db q hs r = some (ip, Payload.unresolved { ip_address := ip })
    ∧ (q.callback = none →
      index db q hs r = some
        { status := 200, content_type := "application/json; charset=utf-8",
          body := serde_json_to_string (Payload.unresolved { ip_address := ip }) })
    ∧ (∀ cb, q.callback = some cb →
      index db q hs r = some
        { status := 200, content_type := "application/javascript; charset=utf-8",
          body := ";" ++ cb ++ "("
            ++ serde_json_to_string (Payload.unresolved { ip_address := ip }) ++ ");" }) := by
  have hc : index_core db q hs r = some (ip, Payload.unresolved { ip_address := ip }) := by
    simp [index_core, h1, h2, h3]
  refine ⟨hc, ?_, ?_⟩
  · intro hcb
    simp [index, hc, hcb]
  · intro cb hcb
    simp [index, hc, hcb]

theorem c3_amended_witness :
    index_core (fun _ => none) { ip := some "8.8.8.8", lang := none, callback := none } [] none
      = some ("8.8.8.8", Payload.unresolved { ip_address := "8.8.8.8" })
    ∧ index (fun _ => none) { ip := some "8.8.8.8", lang := none, callback := none } [] none
      = some
        { status := 200, content_type := "application/json; charset=utf-8",
          body := serde_json_to_string (Payload.unresolved { ip_address := "8.8.8.8" }) } :=
  have h := c3_lookup_miss_is_unresolved_200 (fun _ => none)
    { ip := some "8.8.8.8", lang := none, callback := none } [] none "8.8.8.8"
    (by decide) (by decide) rfl
  ⟨h.1, h.2.1 rfl⟩

/-- C6: whenever the handler serves a response, its status is 200 and the
body is the serialized payload, wrapped as a JSONP statement with media
type application/javascript when a callback is given, and emitted raw with
media type application/json otherwise — also when the payload is the
lookup-failure UnresolvedResponse. -/
theorem c6_output_framing (db : Db) (q : QueryParams) (hs : List (String × String))
    (r : Option String) (ip : String) (p : Payload)
    (h : index_core db q hs r = some (ip, p)) :
    match q.callback with
    | some cb =>
      index db q hs r = some
        { status := 200, content_type := "application/javascript; charset=utf-8",
          body := ";" ++ cb ++ "(" ++ serde_json_to_string p ++ ");" }
      ∧ media_type "application/javascript; charset=utf-8" = "application/javascript"
    | none =>
      index db q hs r = some
        { status := 200, content_type := "application/json; charset=utf-8",
          body := serde_json_to_string p }
      ∧ media_type "application/json; charset=utf-8" = "application/json" := by
  cases hcb : q.callback with
  | none => exact ⟨by simp [index, h, hcb], by decide⟩
  | some cb => exact ⟨by simp [index, h, hcb], by decide⟩

theorem c6_witness :
    index (fun _ => none) { ip := some "8.8.8.8", lang := none, callback := some "foo" } [] none
      = some
        { status := 200, content_type := "application/javascript; charset=utf-8",
          body := ";foo("
            ++ serde_json_to_string (Payload.unresolved { ip_address := "8.8.8.8" }) ++ ");" }
    ∧ media_type "application/javascript; charset=utf-8" = "application/javascript" :=
  c6_output_framing (fun _ => none)
    { ip := some "8.8.8.8", lang := none, callback := some "foo" } [] none
    "8.8.8.8" (Payload.unresolved { ip_address := "8.8.8.8" }) (by decide)

end GeoipRs
